import Mathlib

/-!
Verification development for the PandasEngine4Excel repository.

The definitions below are shallow embeddings of the functions in
`excelsior/data_processing.py`, `excelsior/services/query_service.py` and
`excelsior/resources/query_engine.py`.  Tables are ordered column lists with
ordered rows of cells; machine-level pandas details (dtypes, indexes) are
represented explicitly where the claims depend on them.
-/

/-! ## String helpers

Python's `in` operator on strings is substring containment, and `str.lower`
lowercases characterwise.  Lean's built-in `String` comparison functions are
iterator-based and do not reduce well, so the embeddings below work on the
underlying character lists. -/

/-- Characterwise lowercasing, the embedding of Python `str.lower()` for the
ASCII strings used by the repository. -/
def lowerStr (s : String) : String := ⟨s.data.map Char.toLower⟩

/-- Check that the first list occurs at the head of the second list. -/
def leadsWith : List Char → List Char → Bool
  | [], _ => true
  | _ :: _, [] => false
  | a :: as, b :: bs => a = b && leadsWith as bs

/-- Check that `needle` occurs contiguously somewhere in the second list. -/
def occursIn (needle : List Char) : List Char → Bool
  | [] => needle.isEmpty
  | b :: bs => leadsWith needle (b :: bs) || occursIn needle bs

/-- Embedding of Python's `needle in haystack` substring test. -/
def strContains (haystack needle : String) : Bool :=
  occursIn needle.data haystack.data

/-! ## A total order on cell values

`pd.pivot_table` (default `sort=True`) sorts the grouped result by its group
keys.  The keys appearing in the claims are strings, compared
lexicographically; the order below is the lexicographic character order,
extended to numbers so that it is total on all modelled cell values. -/

/-- Lexicographic order on character lists (the order pandas uses when sorting
string group keys). -/
def charListLeb : List Char → List Char → Bool
  | [], _ => true
  | _ :: _, [] => false
  | a :: as, b :: bs => if a = b then charListLeb as bs else decide (a < b)

theorem charListLeb_total : ∀ as bs : List Char,
    charListLeb as bs = true ∨ charListLeb bs as = true
  | [], _ => Or.inl rfl
  | _ :: _, [] => Or.inr rfl
  | a :: as, b :: bs => by
    by_cases hab : a = b
    · subst hab
      simpa [charListLeb] using charListLeb_total as bs
    · rcases lt_or_gt_of_ne hab with h | h
      · exact Or.inl (by simp [charListLeb, hab, h])
      · exact Or.inr (by simp [charListLeb, Ne.symm hab, h])

theorem charListLeb_trans : ∀ as bs cs : List Char,
    charListLeb as bs = true → charListLeb bs cs = true → charListLeb as cs = true
  | [], _, _, _, _ => rfl
  | _ :: _, [], _, h1, _ => by simp [charListLeb] at h1
  | _ :: _, _ :: _, [], _, h2 => by simp [charListLeb] at h2
  | a :: as, b :: bs, c :: cs, h1, h2 => by
    by_cases hab : a = b
    · subst hab
      by_cases hac : a = c
      · subst hac
        simp only [charListLeb, if_pos rfl] at h1 h2 ⊢
        exact charListLeb_trans as bs cs h1 h2
      · simpa [charListLeb, hac] using h2
    · by_cases hbc : b = c
      · subst hbc
        simpa [charListLeb, hab] using h1
      · simp only [charListLeb, if_neg hab, decide_eq_true_eq] at h1
        simp only [charListLeb, if_neg hbc, decide_eq_true_eq] at h2
        have hac : a < c := lt_trans h1 h2
        simp [charListLeb, ne_of_lt hac, hac]

theorem charListLeb_antisymm : ∀ as bs : List Char,
    charListLeb as bs = true → charListLeb bs as = true → as = bs
  | [], [], _, _ => rfl
  | [], _ :: _, _, h2 => by simp [charListLeb] at h2
  | _ :: _, [], h1, _ => by simp [charListLeb] at h1
  | a :: as, b :: bs, h1, h2 => by
    by_cases hab : a = b
    · subst hab
      simp only [charListLeb, if_pos rfl] at h1 h2
      exact congrArg (a :: ·) (charListLeb_antisymm as bs h1 h2)
    · simp only [charListLeb, if_neg hab, decide_eq_true_eq] at h1
      simp only [charListLeb, if_neg (Ne.symm hab), decide_eq_true_eq] at h2
      exact absurd h1 (not_lt_of_gt h2)

/-! ## Cells and tables -/

/-- A table cell: the values handled by the repository's pivot path are
strings and numbers (numeric columns hold the coerced numbers, everything
else is kept in string form). -/
inductive Value
  | str (s : String)
  | num (n : Int)
deriving DecidableEq, Repr

/-- Embedding of Python `str(value)` on cells, as used by the filter in
`create_pivot` (`astype(str).isin([str(v) ...])`). -/
def Value.toPyStr : Value → String
  | .str s => s
  | .num n => toString n

/-- Total comparison on cells: numbers by integer order, strings by
lexicographic character order; the mixed cases are fixed arbitrarily (the
group keys sorted by the source are homogeneous per column). -/
def Value.leb : Value → Value → Bool
  | .num a, .num b => decide (a ≤ b)
  | .num _, .str _ => true
  | .str _, .num _ => false
  | .str a, .str b => charListLeb a.data b.data

theorem Value.leb_total : ∀ a b : Value, a.leb b = true ∨ b.leb a = true
  | .num a, .num b => by
    rcases le_total a b with h | h
    · exact Or.inl (by simp [Value.leb, h])
    · exact Or.inr (by simp [Value.leb, h])
  | .num _, .str _ => Or.inl rfl
  | .str _, .num _ => Or.inr rfl
  | .str a, .str b => charListLeb_total a.data b.data

theorem Value.leb_trans : ∀ a b c : Value,
    a.leb b = true → b.leb c = true → a.leb c = true
  | .num _, .num _, .num _, h1, h2 => by
    simp only [Value.leb, decide_eq_true_eq] at h1 h2 ⊢
    exact le_trans h1 h2
  | .num _, _, .str _, _, _ => rfl
  | .num _, .str _, .num _, _, h2 => by simp [Value.leb] at h2
  | .str _, .num _, _, h1, _ => by simp [Value.leb] at h1
  | .str _, .str _, .num _, _, h2 => by simp [Value.leb] at h2
  | .str a, .str b, .str c, h1, h2 => charListLeb_trans a.data b.data c.data h1 h2

theorem Value.leb_antisymm : ∀ a b : Value, a.leb b = true → b.leb a = true → a = b
  | .num a, .num b, h1, h2 => by
    simp only [Value.leb, decide_eq_true_eq] at h1 h2
    exact congrArg Value.num (le_antisymm h1 h2)
  | .num _, .str _, _, h2 => by simp [Value.leb] at h2
  | .str _, .num _, h1, _ => by simp [Value.leb] at h1
  | .str a, .str b, h1, h2 => by
    have h := charListLeb_antisymm a.data b.data h1 h2
    cases a; cases b; simpa using congrArg Value.str (congrArg String.mk h)

/-- Lexicographic extension of `Value.leb` to key tuples (pandas sorts grouped
results by the tuple of group-key values). -/
def keyLeb : List Value → List Value → Bool
  | [], _ => true
  | _ :: _, [] => false
  | a :: as, b :: bs => if a = b then keyLeb as bs else a.leb b

/-- The sorting relation used on group keys, in `Prop` form. -/
def keyLe (a b : List Value) : Prop := keyLeb a b = true

instance : DecidableRel keyLe := fun a b => inferInstanceAs (Decidable (_ = true))

theorem keyLeb_total : ∀ as bs : List Value, keyLeb as bs = true ∨ keyLeb bs as = true
  | [], _ => Or.inl rfl
  | _ :: _, [] => Or.inr rfl
  | a :: as, b :: bs => by
    by_cases hab : a = b
    · subst hab
      simpa [keyLeb] using keyLeb_total as bs
    · rcases Value.leb_total a b with h | h
      · exact Or.inl (by simp [keyLeb, hab, h])
      · exact Or.inr (by simp [keyLeb, Ne.symm hab, h])

theorem keyLeb_trans : ∀ as bs cs : List Value,
    keyLeb as bs = true → keyLeb bs cs = true → keyLeb as cs = true
  | [], _, _, _, _ => rfl
  | _ :: _, [], _, h1, _ => by simp [keyLeb] at h1
  | _ :: _, _ :: _, [], _, h2 => by simp [keyLeb] at h2
  | a :: as, b :: bs, c :: cs, h1, h2 => by
    by_cases hab : a = b
    · subst hab
      by_cases hac : a = c
      · subst hac
        simp only [keyLeb, if_pos rfl] at h1 h2 ⊢
        exact keyLeb_trans as bs cs h1 h2
      · simpa [keyLeb, hac] using h2
    · by_cases hbc : b = c
      · subst hbc
        simpa [keyLeb, hab] using h1
      · simp only [keyLeb, if_neg hab] at h1
        simp only [keyLeb, if_neg hbc] at h2
        by_cases hac : a = c
        · subst hac
          exact absurd (Value.leb_antisymm a b h1 h2) hab
        · simp [keyLeb, if_neg hac, Value.leb_trans a b c h1 h2]

instance : IsTotal (List Value) keyLe := ⟨keyLeb_total⟩

instance : IsTrans (List Value) keyLe := ⟨keyLeb_trans⟩

/-- A table: ordered column names and ordered rows of cells (the embedding of
a pandas `DataFrame` whose positional index is just 0-based row order). -/
structure Table where
  cols : List String
  rows : List (List Value)
deriving DecidableEq, Repr

/-- Position of a column label, the embedding of pandas column lookup. -/
def Table.colIdx (t : Table) (c : String) : Option Nat :=
  t.cols.findIdx? (fun c' => c' == c)

/-- The cell of row `r` in column `c` of table `t`. -/
def Table.cellAt (t : Table) (r : List Value) (c : String) : Option Value :=
  (t.colIdx c).bind (fun i => r.get? i)

/-! ## Pivot engine (`excelsior/data_processing.py`, `create_pivot`) -/

/-- A filter entry as built by the UI: `create_pivot` treats list values with
stringified `isin` membership and any other value with plain equality. -/
inductive FilterVal
  | multi (vs : List Value)
  | single (v : Value)
deriving DecidableEq, Repr

/-- Embedding of one filtering step of `create_pivot`
(`data_processing.py` lines 14-21): a list filter keeps rows whose
stringified cell is among the stringified allowed values, a single-value
filter keeps rows whose cell equals the value; a missing column raises
(`KeyError`). -/
def filterOne (t : Table) (c : String) (fv : FilterVal) : Except String Table :=
  match t.colIdx c with
  | none => Except.error ("KeyError: " ++ c)
  | some i =>
    Except.ok { t with rows := t.rows.filter (fun r =>
      match fv with
      | FilterVal.multi vs =>
        match r.get? i with
        | some v => (vs.map Value.toPyStr).contains v.toPyStr
        | none => false
      | FilterVal.single v => r.get? i == some v) }

/-- Embedding of the sequential filter loop of `create_pivot`: the filters are
applied one after the other (a `None` or empty filter dict applies none). -/
def applyFilters (t : Table) (filt : List (String × FilterVal)) : Except String Table :=
  filt.foldlM (fun acc cf => filterOne acc cf.1 cf.2) t

/-- The group key of row `r`: its cells in the group-by columns, in group-by
order (all group-by columns are checked present before this is used). -/
def keyOf (t : Table) (gb : List String) (r : List Value) : List Value :=
  gb.map (fun c => (t.cellAt r c).getD (Value.num 0))

/-- Ascending sort of the distinct group keys, the embedding of the
`sort=True` default of `pd.pivot_table` (grouped output is sorted by its
group keys, not left in first-encountered order). -/
def sortKeys (ks : List (List Value)) : List (List Value) :=
  List.insertionSort keyLe ks

/-- Embedding of the
`pd.pivot_table(df_filtered, values=values, index=rows, columns=[],
aggfunc=aggfunc, fill_value=0)` call followed by `.reset_index()`
(`data_processing.py` lines 24-35): with no pivot columns this groups the
rows by the tuple of group-key cells, aggregates every values column per
group, and emits one row per distinct key with the keys as leading columns
(the `reset_index` form) in ascending key order.  An empty group-by list
raises (`ValueError: No group keys passed!`), as does a missing column
(`KeyError`).  The aggregation is passed as a function on the collected
column cells; `sumAgg` below instantiates the `aggfunc='sum'` the claims
exercise. -/
def pivotTableFn (t : Table) (values : List String) (gb : List String)
    (agg : List Value → Value) : Except String Table :=
  if gb = [] then Except.error "No group keys passed!"
  else if (gb.all (fun c => t.cols.contains c) &&
           values.all (fun c => t.cols.contains c)) = false then
    Except.error "KeyError"
  else
    Except.ok
      { cols := gb ++ values,
        rows := (sortKeys ((t.rows.map (keyOf t gb)).dedup)).map (fun k =>
          k ++ values.map (fun vc =>
            agg ((t.rows.filter (fun r => keyOf t gb r == k)).filterMap
              (fun r => t.cellAt r vc)))) }

/-- The error observable from `create_pivot` when the inner computation
raises: the `except` block only prints, so the following
`return pivot_table.reset_index()` raises `UnboundLocalError` (the variable
`pivot_table` was never assigned). -/
inductive PivotError
  | unboundLocal
deriving DecidableEq, Repr

/-- Embedding of `create_pivot(df, rows, values, filter, aggfunc)`
(`data_processing.py` lines 8-35): filter the copied table sequentially,
pivot the filtered rows, and return the reset-index result; any exception in
filtering or pivoting is caught, logged, and then resurfaces as the
`UnboundLocalError` raised by the `return` statement, so no degraded value is
ever returned.  Callers always pass an explicit values list, so the
`values=None` default is not modelled. -/
def create_pivot (df : Table) (rows : List String) (values : List String)
    (filt : List (String × FilterVal)) (aggfunc : List Value → Value) :
    Except PivotError Table :=
  match applyFilters df filt with
  | Except.error _ => Except.error PivotError.unboundLocal
  | Except.ok dff =>
    match pivotTableFn dff values rows aggfunc with
    | Except.ok t => Except.ok t
    | Except.error _ => Except.error PivotError.unboundLocal

/-- Embedding of `aggfunc='sum'` on a numeric column: the integer sum of the
collected cells (all cells of a numeric values column are numbers). -/
def sumAgg (vs : List Value) : Value :=
  Value.num (vs.foldl (fun acc v => match v with
    | Value.num n => acc + n
    | Value.str _ => acc) 0)

/-- The table of the specification scenario: columns Month, Country, Revenue
with the two rows (Jan 2024, UK, 100) and (Jan 2024, FR, 50). -/
def scenarioTable : Table :=
  { cols := ["Month", "Country", "Revenue"],
    rows := [[Value.str "Jan 2024", Value.str "UK", Value.num 100],
             [Value.str "Jan 2024", Value.str "FR", Value.num 50]] }

/-- The value `create_pivot` actually produces for the scenario: the groups
come out in ascending key order (FR before UK), not first-seen order. -/
def scenarioResult : Table :=
  { cols := ["Country", "Revenue"],
    rows := [[Value.str "FR", Value.num 50], [Value.str "UK", Value.num 100]] }


/-! ## Query service (`excelsior/services/query_service.py`) -/

/-- The engine answer observable by the service: the response text and the
pandas expression recorded in the response metadata
(`metadata['pandas_instruction_str']`). -/
structure Response where
  response : String
  pandas_instruction_str : String
deriving DecidableEq, Repr

/-- The context-expanded prompt built by `execute_query` before the retry
loop when a truthy `context` is passed. -/
def expandedQuery (context query : String) : String :=
  context ++ "\n\nCurrent question: " ++ query ++ "\n\nProvide a clear, concise answer."

/-- The minimal fallback prompt installed inside the retry loop of
`execute_query` once `retry_count == 2`. -/
def fallbackQuery (query : String) : String :=
  "Analyzing pivot table. Question: " ++ query

/-- Python truthiness of the optional `context` argument (`if context:`):
absent and empty strings are falsy. -/
def optTruthy : Option String → Bool
  | none => false
  | some s => !(s == "")

/-- Embedding of the `while retry_count < max_retries` loop of
`execute_query` (`query_service.py` lines 31-42).  The engine is modelled as
a function of the attempt index (`query_engine.query` is stateful, so each
attempt may behave differently) and of the query string it is passed; an
exception is an `Except.error` carrying `str(e)`.  Alongside the source's
`(success, response, error)` triple the embedding returns the list of query
strings issued to the engine, one per attempt.  The fuel starts at
`max_retries = 3`; the fuel-exhausted branch is the source's dead
`return False, None, "Maximum retries exceeded"` line. -/
def executeQueryGo (engine : Nat → String → Except String Response) (query : String)
    (hasContext : Bool) :
    Nat → Nat → String → List String → (Bool × Option Response × Option String) × List String
  | 0, _, _, trace => ((false, none, some "Maximum retries exceeded"), trace)
  | fuel + 1, retryCount, finalQuery, trace =>
    match engine retryCount finalQuery with
    | Except.ok r => ((true, some r, none), trace ++ [finalQuery])
    | Except.error e =>
      let rc := retryCount + 1
      let fq := if rc == 2 && hasContext then fallbackQuery query else finalQuery
      if rc ≥ 3 then ((false, none, some e), trace ++ [finalQuery])
      else executeQueryGo engine query hasContext fuel rc fq (trace ++ [finalQuery])

/-- Embedding of `QueryService.execute_query(query_engine, query, context)`
(`query_service.py` lines 22-44): build the context-expanded prompt when the
context is truthy, then run the bounded retry loop. -/
def execute_query (engine : Nat → String → Except String Response) (query : String)
    (context : Option String) : (Bool × Option Response × Option String) × List String :=
  let finalQuery :=
    match context with
    | some c => if c == "" then query else expandedQuery c query
    | none => query
  executeQueryGo engine query (optTruthy context) 3 0 finalQuery []

/-- The fixed analytical keyword list of `execute_overall_query`
(`query_service.py` lines 50-52). -/
def analytical_keywords : List String :=
  ["analyse", "why", "explain", "interpret", "insight",
   "trend", "pattern", "meaning", "implication", "compare",
   "reason", "understand", "contribute", "who"]

/-- Embedding of the intent classification of `execute_overall_query`:
`any(keyword in query.lower() for keyword in analytical_keywords)` — raw
substring containment against the lower-cased query. -/
def is_analytical (query : String) : Bool :=
  analytical_keywords.any (fun kw => strContains (lowerStr query) kw)

/-- The words of a query, lower-cased and split on spaces.  This definition
follows the wording of the specification claims (standalone-word membership)
and is only used to state that the source does not classify by words. -/
def splitWordsAux : List Char → List Char → List String
  | [], acc => [⟨acc.reverse⟩]
  | c :: cs, acc =>
    if c = ' ' then ⟨acc.reverse⟩ :: splitWordsAux cs []
    else splitWordsAux cs (c :: acc)

/-- The standalone words of a query (lower-cased, space-separated). -/
def queryWords (q : String) : List String := splitWordsAux (lowerStr q).data []

/-- A conversation entry as stored in `session_state.messages`: a role, the
content when the `content` key is present, and the recorded pandas code when
the `pandas_code` key is present.  The UI only ever stores string contents,
so a missing key is modelled as `none`. -/
structure ChatMessage where
  role : String
  content : Option String
  pandas_code : Option String
deriving DecidableEq, Repr

/-- The backward scan of `provide_analysis_on_previous_results`
(`query_service.py` lines 67-71): the most recent message whose role is
`assistant` and which carries a `content` key — regardless of whether that
content is empty. -/
def findPreviousResult (messages : List ChatMessage) : Option ChatMessage :=
  messages.reverse.find? (fun m => m.role == "assistant" && m.content.isSome)

/-- The analytical prompt template of `provide_analysis_on_previous_results`
(whitespace is abbreviated; no claim inspects the prompt text). -/
def analyticalPrompt (context : Option String) (previousResult query : String) : String :=
  "You are a financial analyst reviewing data that has already been retrieved.\n"
    ++ context.getD "" ++ "\nPrevious data result:\n" ++ previousResult
    ++ "\nCurrent analytical question: " ++ query
    ++ "\nPlease provide a thoughtful analysis of these results."

/-- Embedding of
`QueryService.provide_analysis_on_previous_results(query, context)`
(`query_service.py` lines 62-111).  The language model is a function from
prompt to completion.  The second component of the result records whether
the model was consulted: the no-previous-result failure is produced without
any model call.  The loop breaks at the most recent assistant message
carrying a `content` key; a falsy (empty) content then fails even if an
older assistant message had non-empty content. -/
def provide_analysis_on_previous_results (llm : String → String)
    (messages : List ChatMessage) (query : String) (context : Option String) :
    (Bool × Option Response × Option String) × Bool :=
  match findPreviousResult messages with
  | none => ((false, none, some "No previous results to analyze"), false)
  | some m =>
    match m.content with
    | none => ((false, none, some "No previous results to analyze"), false)
    | some prev =>
      if prev == "" then ((false, none, some "No previous results to analyze"), false)
      else
        let code := m.pandas_code.getD "# No code available"
        let analysis := llm (analyticalPrompt context prev query)
        ((true,
          some { response := "**Analysis of Previous Results:**\n" ++ analysis,
                 pandas_instruction_str := code },
          none), true)

/-- The branch taken by `execute_overall_query`. -/
inductive Route
  | analytical
  | computational
deriving DecidableEq, Repr

/-- Embedding of `QueryService.execute_overall_query`
(`query_service.py` lines 47-60): keyword-classified dispatch.  The result
carries the branch taken, the `(success, response, error)` triple, and the
list of query strings issued to the pandas engine — empty on the analytical
branch, where `execute_query` is never invoked. -/
def execute_overall_query (engine : Nat → String → Except String Response)
    (llm : String → String) (messages : List ChatMessage) (query : String)
    (context : Option String) :
    Route × (Bool × Option Response × Option String) × List String :=
  if is_analytical query then
    (Route.analytical, (provide_analysis_on_previous_results llm messages query context).1, [])
  else
    let r := execute_query engine query context
    (Route.computational, r.1, r.2)

/-! ## Column type coercion (`excelsior/data_processing.py`, `_coerce_column_types`) -/

/-- All characters are decimal digits. -/
def allDigits (ds : List Char) : Bool :=
  ds.all (fun c => decide ('0' ≤ c) && decide (c ≤ '9'))

/-- Numeric value of a digit list. -/
def digitsToNat (ds : List Char) : Nat :=
  ds.foldl (fun acc c => acc * 10 + (c.toNat - 48)) 0

/-- Embedding of the per-value numeric parse performed by
`pd.to_numeric(..., errors='coerce')`: optional sign, decimal digits,
optional fractional part; anything else coerces to missing (`NaN`).
Exponent and separator formats are not modelled (no claim exercises them). -/
def parseNumeric (s : String) : Option Rat :=
  let signBody : Bool × List Char :=
    match s.data with
    | '-' :: rest => (true, rest)
    | '+' :: rest => (false, rest)
    | cs => (false, cs)
  let mk : Rat → Option Rat := fun q => some (if signBody.1 then -q else q)
  match signBody.2.splitOn '.' with
  | [ip] => if !ip.isEmpty && allDigits ip then mk (digitsToNat ip) else none
  | [ip, fp] =>
    if (!ip.isEmpty || !fp.isEmpty) && allDigits ip && allDigits fp then
      mk ((digitsToNat ip : Rat) + (digitsToNat fp : Rat) / ((10 : Rat) ^ fp.length))
    else none
  | _ => none

/-- The outcome of `_coerce_column_types` for one object-dtype column: either
the column is converted to the parsed numeric series (missing cells stay
missing), or it is kept as strings via `astype(str)` (which renders a missing
cell as the string `nan`). -/
inductive CoercedColumn
  | numeric (cells : List (Option Rat))
  | categorical (cells : List String)
deriving DecidableEq, Repr

/-- Whether the coerced column was classified numeric. -/
def CoercedColumn.isNumeric : CoercedColumn → Bool
  | numeric _ => true
  | categorical _ => false

/-- Whether the coerced column was classified categorical. -/
def CoercedColumn.isCategorical : CoercedColumn → Bool
  | numeric _ => false
  | categorical _ => true

/-- Embedding of the per-column body of `_coerce_column_types`
(`data_processing.py` lines 71-83) on an object-dtype column whose cells are
optional strings: parse every cell with coercion, and convert the column to
numeric exactly when no non-null value was lost
(`numeric_series.notna().sum() == df[col].notna().sum()`); otherwise keep it
as strings. -/
def coerceColumn (cells : List (Option String)) : CoercedColumn :=
  let numeric := cells.map (fun c => c.bind parseNumeric)
  if (numeric.filterMap id).length = (cells.filterMap id).length then
    CoercedColumn.numeric numeric
  else
    CoercedColumn.categorical (cells.map (fun c => c.getD "nan"))

/-! ## Dataset join (`excelsior/data_processing.py`, `join_datasets`) -/

/-- A registry entry of `session_state.datasets`: the stored dataframe when
the `df` key is present (the other metadata keys play no role in the join). -/
structure Dataset where
  df : Option Table
deriving DecidableEq, Repr

/-- Dictionary lookup in the dataset registry. -/
def lookupKey (dict : List (String × Dataset)) (k : String) : Option Dataset :=
  (dict.find? (fun kv => kv.1 == k)).map (fun kv => kv.2)

/-- The gathering loop of `join_datasets` (`data_processing.py` lines
319-331): resolve every key, failing on the first missing key or missing
dataframe. -/
def gatherDfs (dict : List (String × Dataset)) : List String → Except String (List (String × Table))
  | [] => Except.ok []
  | k :: ks =>
    match lookupKey dict k with
    | none => Except.error ("Dataset " ++ k ++ " not found")
    | some d =>
      match d.df with
      | none => Except.error ("Dataset " ++ k ++ " does not contain dataframe data")
      | some t => (gatherDfs dict ks).map (fun rest => (k, t) :: rest)

/-- Column-set equality ignoring order, the embedding of
`set(df.columns) != first_columns` (column labels are distinct in every
upload path, so list containment both ways models set equality). -/
def colSetEq (a b : List String) : Bool :=
  a.all (fun c => b.contains c) && b.all (fun c => a.contains c)

/-- Set difference of column lists, in first-occurrence order.  Python
renders `set` differences in unspecified order; the claims only use which
columns appear, never their order. -/
def colsDiff (a b : List String) : List String :=
  a.filter (fun c => !(b.contains c))

/-- Comma join as produced by `', '.join(...)`. -/
def joinComma : List String → String
  | [] => ""
  | [x] => x
  | x :: xs => x ++ ", " ++ joinComma xs

/-- The mismatch error message of `join_datasets` (`data_processing.py`
lines 341-345). -/
def mismatchMessage (key : String) (missing extra : List String) : String :=
  "Column mismatch in dataset " ++ key ++ "."
    ++ (if missing.isEmpty then "" else " Missing columns: " ++ joinComma missing ++ ".")
    ++ (if extra.isEmpty then "" else " Extra columns: " ++ joinComma extra ++ ".")

/-- The column check loop of `join_datasets` (`data_processing.py` lines
334-347): scan the datasets after the first and return, for the FIRST one
whose column set differs from the first dataset's, its key together with the
missing and extra columns. -/
def findMismatch (firstCols : List String) :
    List (String × Table) → Option (String × List String × List String)
  | [] => none
  | (k, df) :: rest =>
    if colSetEq df.cols firstCols then findMismatch firstCols rest
    else some (k, colsDiff firstCols df.cols, colsDiff df.cols firstCols)

/-- Reorder a row from its own column order into the target column order, as
`pd.concat` aligns columns by label (every target column is present when the
column sets agree). -/
def alignRow (srcCols tgtCols : List String) (r : List Value) : List Value :=
  tgtCols.map (fun c =>
    ((srcCols.findIdx? (fun c' => c' == c)).bind (fun i => r.get? i)).getD (Value.num 0))

/-- The first gathered dataset's column list. -/
def firstColsOf (pairs : List (String × Table)) : List String :=
  ((pairs.map (fun kv : String × Table => kv.2)).headD { cols := [], rows := [] }).cols

/-- Embedding of `join_datasets(datasets_dict, dataset_keys)`
(`data_processing.py` lines 307-355), returning the source's
`(joined_df, first_dataset, message)` triple: fewer than two keys or a
failed lookup reports an error with no table; a column-set mismatch reports
the first offending dataset's missing/extra columns with no table; otherwise
the rows are concatenated in dataset order (later frames aligned to the
first frame's column order) with `ignore_index=True`. -/
def join_datasets (dict : List (String × Dataset)) (keys : List String) :
    Option Table × Option Dataset × String :=
  if keys.length < 2 then
    (none, none, "Please select at least two datasets to join")
  else
    match gatherDfs dict keys with
    | Except.error msg => (none, none, msg)
    | Except.ok pairs =>
      let firstCols := firstColsOf pairs
      match findMismatch firstCols (pairs.drop 1) with
      | some ke => (none, none, mismatchMessage ke.1 ke.2.1 ke.2.2)
      | none =>
        (some { cols := firstCols,
                rows := (pairs.map (fun kv =>
                  kv.2.rows.map (alignRow kv.2.cols firstCols))).flatten },
         lookupKey dict (keys.headD ""),
         "Datasets joined successfully")

/-! ## Expression evaluation scope (`excelsior/resources/query_engine.py`) -/

/-- A representative set of names always resolvable by Python evaluation:
when `eval` receives a globals dict that lacks a `__builtins__` entry — in
particular the empty dict — CPython inserts the built-in module into it
before evaluating, so every built-in name stays reachable from the evaluated
expression. -/
def pythonBuiltins : List String :=
  ["abs", "len", "min", "max", "sum", "sorted", "range", "print",
   "getattr", "setattr", "open", "type", "vars", "globals", "locals",
   "exec", "compile", "__import__", "__builtins__"]

/-- A binding reachable from the evaluated expression. -/
inductive PyBinding
  | table (t : Table)
  | builtin (name : String)
deriving DecidableEq, Repr

/-- Embedding of the name-resolution environment of
`eval(pandas_instructions.strip(), {}, local_vars)` with
`local_vars = {'df': self.df}` in
`CustomPandasQueryEngine._process_pandas_instructions`
(`query_engine.py` lines 29-42): the locals expose only `df`, the globals
dict is empty, but CPython's documented `eval` semantics add `__builtins__`
to an empty globals dict, so the built-in names remain accessible alongside
`df`. -/
def evalScopeLookup (df : Table) (name : String) : Option PyBinding :=
  if name == "df" then some (PyBinding.table df)
  else if pythonBuiltins.contains name then some (PyBinding.builtin name)
  else none

/-! ## Claim theorems -/

/-- C3 is false on the code: a column with zero non-null values is NOT
classified categorical — the no-loss comparison `0 == 0` succeeds vacuously
and `_coerce_column_types` converts the column to numeric. -/
theorem C3_counterexample :
    ([none, none] : List (Option String)).filterMap id = [] ∧
    (coerceColumn [none, none]).isCategorical = false ∧
    (coerceColumn [none, none]).isNumeric = true := by
  decide

/-- C3 (amended): a column with zero non-null values is classified numeric
(the vacuous no-silent-data-loss comparison `0 == 0` succeeds), converted to
an all-missing numeric column — not categorical. -/
theorem C3_empty_column_numeric (cells : List (Option String))
    (h : cells.filterMap id = []) :
    coerceColumn cells = CoercedColumn.numeric (cells.map (fun _ => none)) := by
  have hall : ∀ c ∈ cells, c = none := by
    intro c hc
    cases c with
    | none => rfl
    | some s =>
      have : s ∈ cells.filterMap id := List.mem_filterMap.mpr ⟨some s, hc, rfl⟩
      simp [h] at this
  have h1 : cells.map (fun c => c.bind parseNumeric) =
      cells.map (fun _ => (none : Option Rat)) := by
    refine List.map_congr_left ?_
    intro c hc
    rw [hall c hc]
    rfl
  unfold coerceColumn
  rw [h1, h]
  simp

/-- Witness for C3_empty_column_numeric at the one-cell all-null column. -/
theorem C3_empty_column_numeric_witness :
    ([none] : List (Option String)).filterMap id = [] ∧
    coerceColumn [none] = CoercedColumn.numeric [none] :=
  ⟨rfl, C3_empty_column_numeric [none] rfl⟩

/-- C4: the claim that the evaluated expression can reference no name other
than `df` is violated by the code — `eval` with an empty globals dict still
resolves every Python built-in (CPython inserts `__builtins__`), so names
such as `len` and `__import__` are reachable alongside `df`. -/
theorem C4_builtins_reachable :
    evalScopeLookup { cols := [], rows := [] } "len" =
      some (PyBinding.builtin "len") ∧
    evalScopeLookup { cols := [], rows := [] } "__import__" =
      some (PyBinding.builtin "__import__") ∧
    ¬ ("len" = "df") ∧ ¬ ("__import__" = "df") ∧
    evalScopeLookup { cols := [], rows := [] } "df" =
      some (PyBinding.table { cols := [], rows := [] }) := by
  decide

/-- C7: a query containing any keyword of the fixed analytical set (as a
substring of its lower-cased text) routes to the analytical path, where the
pandas engine is never invoked (empty engine trace, result independent of
the engine); any other query routes to the computational path; in
particular "why did revenue drop" routes analytically. -/
theorem C7_keyword_routing (e1 e2 : Nat → String → Except String Response)
    (llm : String → String) (messages : List ChatMessage) (query : String)
    (context : Option String) :
    ((∃ kw ∈ analytical_keywords, strContains (lowerStr query) kw = true) →
      (execute_overall_query e1 llm messages query context).1 = Route.analytical ∧
      (execute_overall_query e1 llm messages query context).2.2 = [] ∧
      execute_overall_query e1 llm messages query context =
        execute_overall_query e2 llm messages query context) ∧
    ((∀ kw ∈ analytical_keywords, ¬ strContains (lowerStr query) kw = true) →
      (execute_overall_query e1 llm messages query context).1 = Route.computational) ∧
    (execute_overall_query e1 llm messages "why did revenue drop" context).1 =
      Route.analytical := by
  refine ⟨?_, ?_, ?_⟩
  · intro hkw
    have ha : is_analytical query = true := by
      simpa [is_analytical, List.any_eq_true] using hkw
    simp [execute_overall_query, ha]
  · intro hkw
    have ha : is_analytical query = false := by
      simp only [is_analytical, List.any_eq_true]
      simpa using hkw
    simp [execute_overall_query, ha]
  · have ha : is_analytical "why did revenue drop" = true := by decide
    simp [execute_overall_query, ha]

/-- Witness for C7_keyword_routing: the keyword "why" occurs in
"why did revenue drop", and the routing is analytical with an empty engine
trace. -/
theorem C7_keyword_routing_witness :
    (execute_overall_query (fun _ _ => Except.error "boom") (fun _ => "ok") []
      "why did revenue drop" none).1 = Route.analytical ∧
    (execute_overall_query (fun _ _ => Except.error "boom") (fun _ => "ok") []
      "why did revenue drop" none).2.2 = [] := by
  have h := C7_keyword_routing (fun _ _ => Except.error "boom")
    (fun _ _ => Except.ok { response := "", pandas_instruction_str := "" })
    (fun _ => "ok") [] "why did revenue drop" none
  have hk := h.1 ⟨"why", by decide, by decide⟩
  exact ⟨hk.1, hk.2.1⟩

/-- C9: intent classification is raw substring containment — any query whose
lower-cased text contains an analytical keyword routes analytically, even
when, as in "show me the whole table" (where "who" occurs only inside
"whole"), no keyword occurs as a standalone word. -/
theorem C9_substring_routing (e1 : Nat → String → Except String Response)
    (llm : String → String) (messages : List ChatMessage) (context : Option String) :
    (∀ q : String, (∃ kw ∈ analytical_keywords, strContains (lowerStr q) kw = true) →
      (execute_overall_query e1 llm messages q context).1 = Route.analytical) ∧
    (∀ kw ∈ analytical_keywords, ¬ kw ∈ queryWords "show me the whole table") ∧
    (execute_overall_query e1 llm messages "show me the whole table" context).1 =
      Route.analytical := by
  refine ⟨?_, by decide, ?_⟩
  · intro q hkw
    have ha : is_analytical q = true := by
      simpa [is_analytical, List.any_eq_true] using hkw
    simp [execute_overall_query, ha]
  · have ha : is_analytical "show me the whole table" = true := by decide
    simp [execute_overall_query, ha]

/-- Witness for C9_substring_routing: instantiating the universal clause at
the query of the claim, with the keyword "who" found inside "whole". -/
theorem C9_substring_routing_witness :
    (execute_overall_query (fun _ _ => Except.ok
        { response := "r", pandas_instruction_str := "c" })
      (fun _ => "a") [] "show me the whole table" none).1 = Route.analytical := by
  have h := C9_substring_routing (fun _ _ => Except.ok
      { response := "r", pandas_instruction_str := "c" })
    (fun _ => "a") [] none
  exact h.1 "show me the whole table" ⟨"who", by decide, by decide⟩

/-- The conversation used to refute C8: the most recent assistant message
carries an empty content, but an older assistant message carries a
non-empty one. -/
def shadowMessages : List ChatMessage :=
  [{ role := "assistant", content := some "Revenue was 100", pandas_code := some "df" },
   { role := "assistant", content := some "", pandas_code := none }]

/-- C8 is false on the code: although the conversation contains an assistant
message with non-empty content ("Revenue was 100"), the backward scan of
`provide_analysis_on_previous_results` stops at the most recent assistant
message carrying a content key — here the empty one — and then fails with
the no-previous-results error instead of interpreting the older message. -/
theorem C8_counterexample :
    (∃ m ∈ shadowMessages, m.role = "assistant" ∧ m.content.isSome = true ∧
      ¬ m.content.getD "" = "") ∧
    (provide_analysis_on_previous_results (fun p => p) shadowMessages "q" none).1 =
      (false, none, some "No previous results to analyze") ∧
    (provide_analysis_on_previous_results (fun p => p) shadowMessages "q" none).2 = false := by
  refine ⟨by decide, rfl, rfl⟩

/-- C8 (amended): the analytical path locates the most recent assistant
message carrying a content field; if none exists, or if that message's
content is empty, it fails immediately with the no-previous-results error
and no model call; otherwise it interprets that message's content (one model
call over the analytical prompt, reusing its recorded pandas code). -/
theorem C8_previous_result_lookup (llm : String → String) (messages : List ChatMessage)
    (query : String) (context : Option String) :
    ((∀ m ∈ messages, ¬ (m.role = "assistant" ∧ m.content.isSome = true)) →
      provide_analysis_on_previous_results llm messages query context =
        ((false, none, some "No previous results to analyze"), false)) ∧
    (∀ m, findPreviousResult messages = some m →
      (m.content = some "" →
        provide_analysis_on_previous_results llm messages query context =
          ((false, none, some "No previous results to analyze"), false)) ∧
      (∀ c, m.content = some c → ¬ c = "" →
        provide_analysis_on_previous_results llm messages query context =
          ((true,
            some { response := "**Analysis of Previous Results:**\n"
                     ++ llm (analyticalPrompt context c query),
                   pandas_instruction_str := m.pandas_code.getD "# No code available" },
            none), true))) := by
  constructor
  · intro hnone
    have hfind : findPreviousResult messages = none := by
      unfold findPreviousResult
      rw [List.find?_eq_none]
      intro m hm
      have := hnone m (List.mem_reverse.mp hm)
      simp only [Bool.and_eq_true, beq_iff_eq]
      intro hcontra
      exact this ⟨hcontra.1, hcontra.2⟩
    simp [provide_analysis_on_previous_results, hfind]
  · intro m hfind
    constructor
    · intro hempty
      simp [provide_analysis_on_previous_results, hfind, hempty]
    · intro c hc hne
      simp [provide_analysis_on_previous_results, hfind, hc, hne]

/-- Witness for C8_previous_result_lookup at the empty conversation. -/
theorem C8_previous_result_lookup_witness :
    provide_analysis_on_previous_results (fun _ => "unused") [] "q" none =
      ((false, none, some "No previous results to analyze"), false) :=
  (C8_previous_result_lookup (fun _ => "unused") [] "q" none).1 (by simp)

/-- One failing step of the retry loop. -/
theorem executeQueryGo_succ_err (engine : Nat → String → Except String Response)
    (q : String) (hc : Bool) (fuel rc : Nat) (fq : String) (tr : List String)
    (e : String) (h : engine rc fq = Except.error e) :
    executeQueryGo engine q hc (fuel + 1) rc fq tr =
      if rc + 1 ≥ 3 then ((false, none, some e), tr ++ [fq])
      else executeQueryGo engine q hc fuel (rc + 1)
        (if rc + 1 == 2 && hc then fallbackQuery q else fq) (tr ++ [fq]) := by
  simp [executeQueryGo, h]

/-- One successful step of the retry loop. -/
theorem executeQueryGo_succ_ok (engine : Nat → String → Except String Response)
    (q : String) (hc : Bool) (fuel rc : Nat) (fq : String) (tr : List String)
    (r : Response) (h : engine rc fq = Except.ok r) :
    executeQueryGo engine q hc (fuel + 1) rc fq tr = ((true, some r, none), tr ++ [fq]) := by
  simp [executeQueryGo, h]

/-- The retry loop issues at most `fuel` further engine calls. -/
theorem executeQueryGo_trace_length (engine : Nat → String → Except String Response)
    (q : String) (hc : Bool) :
    ∀ (fuel rc : Nat) (fq : String) (tr : List String),
      ((executeQueryGo engine q hc fuel rc fq tr).2).length ≤ tr.length + fuel := by
  intro fuel
  induction fuel with
  | zero => intro rc fq tr; simp [executeQueryGo]
  | succ n ih =>
    intro rc fq tr
    cases h : engine rc fq with
    | ok r =>
      rw [executeQueryGo_succ_ok engine q hc n rc fq tr r h]
      simp
    | error e =>
      rw [executeQueryGo_succ_err engine q hc n rc fq tr e h]
      split
      · simp
      · refine le_trans (ih (rc + 1) _ (tr ++ [fq])) ?_
        simp
        omega

/-- When the engine fails on every call, the loop runs exactly three
attempts: the first two with the initial prompt, the third with the fallback
prompt when the context was truthy, and returns the third failure. -/
theorem executeQueryGo_allfail (engine : Nat → String → Except String Response)
    (q : String) (hc : Bool) (fq : String) (em : Nat → String → String)
    (hfail : ∀ n s, engine n s = Except.error (em n s)) :
    executeQueryGo engine q hc 3 0 fq [] =
      ((false, none, some (em 2 (if hc then fallbackQuery q else fq))),
       [fq, fq, if hc then fallbackQuery q else fq]) := by
  rw [show (3 : Nat) = 2 + 1 from rfl,
    executeQueryGo_succ_err engine q hc 2 0 fq [] (em 0 fq) (hfail 0 fq)]
  norm_num
  rw [show (2 : Nat) = 1 + 1 from rfl,
    executeQueryGo_succ_err engine q hc 1 1 fq [fq] (em 1 fq) (hfail 1 fq)]
  norm_num
  rw [show (1 : Nat) = 0 + 1 from rfl,
    executeQueryGo_succ_err engine q hc 0 2
      (if hc then fallbackQuery q else fq) [fq, fq] _ (hfail 2 _)]
  norm_num

/-- C2 is false on the code: with a non-empty context and an engine whose
calls all raise, the query string passed on the 2nd attempt is still the
context-expanded prompt, not the minimal fallback prompt (`retry_count` is
compared to 2 after the increment, so the fallback only takes effect on the
3rd attempt). -/
theorem C2_counterexample :
    (execute_query (fun _ _ => Except.error "boom") "q" (some "CTX")).2.get? 1 =
      some (expandedQuery "CTX" "q") ∧
    ¬ expandedQuery "CTX" "q" = fallbackQuery "q" ∧
    ¬ (execute_query (fun _ _ => Except.error "boom") "q" (some "CTX")).2.get? 1 =
      some (fallbackQuery "q") := by
  decide

/-- C2 (amended): with a non-empty context, when the first two attempts for
question `q` raise, the 2nd attempt still receives the context-expanded
prompt and the minimal fallback prompt "Analyzing pivot table. Question: q"
is installed only for the 3rd attempt. -/
theorem C2_fallback_third_attempt (engine : Nat → String → Except String Response)
    (query c e0 e1 : String) (hc : ¬ c = "")
    (h0 : engine 0 (expandedQuery c query) = Except.error e0)
    (h1 : engine 1 (expandedQuery c query) = Except.error e1) :
    (execute_query engine query (some c)).2.get? 1 = some (expandedQuery c query) ∧
    (execute_query engine query (some c)).2.get? 2 = some (fallbackQuery query) := by
  have hcb : (c == "") = false := by simpa using hc
  unfold execute_query
  simp only [optTruthy, hcb, Bool.not_false, Bool.false_eq_true, if_false]
  rw [show (3 : Nat) = 2 + 1 from rfl,
    executeQueryGo_succ_err engine query true 2 0 (expandedQuery c query) [] e0 h0]
  norm_num
  rw [show (2 : Nat) = 1 + 1 from rfl,
    executeQueryGo_succ_err engine query true 1 1 (expandedQuery c query)
      [expandedQuery c query] e1 h1]
  norm_num
  cases h2 : engine 2 (fallbackQuery query) with
  | ok r =>
    rw [show (1 : Nat) = 0 + 1 from rfl,
      executeQueryGo_succ_ok engine query true 0 2 (fallbackQuery query)
        [expandedQuery c query, expandedQuery c query] r h2]
    simp [List.get?]
  | error e =>
    rw [show (1 : Nat) = 0 + 1 from rfl,
      executeQueryGo_succ_err engine query true 0 2 (fallbackQuery query)
        [expandedQuery c query, expandedQuery c query] e h2]
    simp [List.get?]

/-- C5: the computational path issues at most 3 engine attempts for one
question, and when the engine fails on every attempt, `execute_query`
returns (does not raise) `success = false`, no response, and an error equal
to the message of the last (3rd) attempt's exception. -/
theorem C5_retry_bound (engine : Nat → String → Except String Response)
    (query : String) (context : Option String) (em : Nat → String → String) :
    (execute_query engine query context).2.length ≤ 3 ∧
    ((∀ n s, engine n s = Except.error (em n s)) →
      (execute_query engine query context).1.1 = false ∧
      (execute_query engine query context).1.2.1 = none ∧
      ∃ lastq, (execute_query engine query context).2.get? 2 = some lastq ∧
        (execute_query engine query context).1.2.2 = some (em 2 lastq)) := by
  constructor
  · unfold execute_query
    refine le_trans (executeQueryGo_trace_length engine query _ 3 0 _ []) ?_
    simp
  · intro hfail
    unfold execute_query
    rw [executeQueryGo_allfail engine query _ _ em hfail]
    exact ⟨rfl, rfl, _, by simp [List.get?], rfl⟩

/-- An engine whose every call raises, with a distinguished last message. -/
def alwaysFail : Nat → String → Except String Response :=
  fun n _ => Except.error (if n == 2 then "last failure" else "earlier failure")

/-- The exception messages raised by `alwaysFail`. -/
def alwaysFailMsg : Nat → String → String :=
  fun n _ => if n == 2 then "last failure" else "earlier failure"

/-- Witness for C5_retry_bound at a concrete always-failing engine. -/
theorem C5_retry_bound_witness :
    (execute_query alwaysFail "q" none).2.length ≤ 3 ∧
    (execute_query alwaysFail "q" none).1.1 = false ∧
    ∃ lastq, (execute_query alwaysFail "q" none).2.get? 2 = some lastq ∧
      (execute_query alwaysFail "q" none).1.2.2 = some (alwaysFailMsg 2 lastq) := by
  have h := C5_retry_bound alwaysFail "q" none alwaysFailMsg
  have h2 := h.2 (fun n s => rfl)
  exact ⟨h.1, h2.1, h2.2.2⟩

/-- Filtering never changes the column list. -/
theorem filterOne_cols (t : Table) (c : String) (fv : FilterVal) (u : Table)
    (h : filterOne t c fv = Except.ok u) : u.cols = t.cols := by
  unfold filterOne at h
  cases hidx : t.colIdx c with
  | none => rw [hidx] at h; exact absurd h (by simp)
  | some i =>
    rw [hidx] at h
    cases h
    rfl

/-- Applying a filter sequence never changes the column list. -/
theorem applyFilters_cols : ∀ (filt : List (String × FilterVal)) (t u : Table),
    applyFilters t filt = Except.ok u → u.cols = t.cols
  | [], t, u, h => by
    cases h
    rfl
  | cf :: rest, t, u, h => by
    simp only [applyFilters, List.foldlM] at h
    cases hf : filterOne t cf.1 cf.2 with
    | error e => rw [hf] at h; exact Except.noConfusion h
    | ok t' =>
      rw [hf] at h
      have h' : applyFilters t' rest = Except.ok u := h
      rw [applyFilters_cols rest t' u h', filterOne_cols t cf.1 cf.2 t' hf]

/-- A column absent from the table has no index. -/
theorem colIdx_eq_none (t : Table) (c : String) (h : ¬ c ∈ t.cols) :
    t.colIdx c = none := by
  unfold Table.colIdx
  rw [List.findIdx?_eq_none_iff]
  intro x hx
  simp only [beq_eq_false_iff_ne, ne_eq]
  intro hxc
  exact h (hxc ▸ hx)

/-- A filter that names a missing column makes the filter sequence raise. -/
theorem applyFilters_missing : ∀ (filt : List (String × FilterVal)) (t : Table)
    (c : String) (fv : FilterVal), (c, fv) ∈ filt → ¬ c ∈ t.cols →
    ∃ e, applyFilters t filt = Except.error e
  | [], _, _, _, hmem, _ => absurd hmem (List.not_mem_nil _)
  | cf :: rest, t, c, fv, hmem, hc => by
    simp only [applyFilters, List.foldlM]
    rcases List.mem_cons.mp hmem with heq | hrest
    · subst heq
      rw [show filterOne t c fv = Except.error ("KeyError: " ++ c) from by
        unfold filterOne; rw [colIdx_eq_none t c hc]]
      exact ⟨"KeyError: " ++ c, rfl⟩
    · cases hf : filterOne t cf.1 cf.2 with
      | error e => exact ⟨e, rfl⟩
      | ok t' =>
        have hc' : ¬ c ∈ t'.cols := by rw [filterOne_cols t cf.1 cf.2 t' hf]; exact hc
        exact applyFilters_missing rest t' c fv hrest hc'

/-- C10: `create_pivot` never yields a degraded value — an `ok` result is
exactly the pivot of the filtered rows, and the failure configurations
(empty group-by list, filter naming a missing column) surface as the
`UnboundLocalError` raised at the `return` statement after the logging
`except` block, never as a partial table. -/
theorem C10_no_partial_pivot (df : Table) (gb vals : List String)
    (filt : List (String × FilterVal)) (agg : List Value → Value) :
    (∀ t, create_pivot df gb vals filt agg = Except.ok t →
      ∃ dff, applyFilters df filt = Except.ok dff ∧
        pivotTableFn dff vals gb agg = Except.ok t) ∧
    (gb = [] → create_pivot df gb vals filt agg = Except.error PivotError.unboundLocal) ∧
    (∀ c fv, (c, fv) ∈ filt → ¬ c ∈ df.cols →
      create_pivot df gb vals filt agg = Except.error PivotError.unboundLocal) := by
  refine ⟨?_, ?_, ?_⟩
  · intro t h
    unfold create_pivot at h
    split at h
    · exact Except.noConfusion h
    · rename_i dff ha
      split at h
      · rename_i t' hp
        cases h
        exact ⟨dff, ha, hp⟩
      · exact Except.noConfusion h
  · intro hgb
    subst hgb
    unfold create_pivot
    cases ha : applyFilters df filt with
    | error e => rfl
    | ok dff => simp [pivotTableFn]
  · intro c fv hmem hc
    obtain ⟨e, he⟩ := applyFilters_missing filt df c fv hmem hc
    unfold create_pivot
    rw [he]

/-- Witness for C10_no_partial_pivot: the empty group-by configuration on
the scenario table raises, and the successful scenario pivot decomposes into
filter and pivot steps. -/
theorem C10_no_partial_pivot_witness :
    create_pivot scenarioTable [] ["Revenue"] [] sumAgg =
      Except.error PivotError.unboundLocal ∧
    ∃ dff, applyFilters scenarioTable [] = Except.ok dff ∧
      pivotTableFn dff ["Revenue"] ["Country"] sumAgg = Except.ok scenarioResult := by
  constructor
  · exact (C10_no_partial_pivot scenarioTable [] ["Revenue"] [] sumAgg).2.1 rfl
  · exact (C10_no_partial_pivot scenarioTable ["Country"] ["Revenue"] [] sumAgg).1
      scenarioResult rfl

/-- C1 is false on the code for its own scenario: pivoting the scenario
table by Country yields the group rows in ascending key order
(FR before UK), because `pd.pivot_table` sorts its group keys by default —
not in first-encountered order (UK before FR) as claimed. -/
theorem C1_counterexample :
    create_pivot scenarioTable ["Country"] ["Revenue"] [] sumAgg =
      Except.ok scenarioResult ∧
    ¬ create_pivot scenarioTable ["Country"] ["Revenue"] [] sumAgg =
      Except.ok { cols := ["Country", "Revenue"],
                  rows := [[Value.str "UK", Value.num 100],
                           [Value.str "FR", Value.num 50]] } := by
  refine ⟨rfl, fun h => ?_⟩
  exact absurd (Except.ok.inj h) (by decide)

/-- Every key produced by `keyOf` has the group-by length. -/
theorem sortKeys_mem_length (dff : Table) (gb : List String) (k : List Value)
    (hk : k ∈ sortKeys ((dff.rows.map (keyOf dff gb)).dedup)) :
    k.length = gb.length := by
  have hk2 : k ∈ (dff.rows.map (keyOf dff gb)).dedup :=
    (List.perm_insertionSort keyLe _).mem_iff.mp hk
  have hk3 : k ∈ dff.rows.map (keyOf dff gb) := List.mem_dedup.mp hk2
  obtain ⟨r, _, hr⟩ := List.mem_map.mp hk3
  rw [← hr]
  simp [keyOf]

/-- C1 (amended): a successful `create_pivot` emits one row per distinct
group key of the filtered table (pairwise distinct keys, row count equal to
the distinct-key count), with columns ordered as the group-by columns
followed by the aggregated value columns and a plain 0-based row order —
but the groups appear in ascending sorted order of the group key (pandas
`pivot_table` sorts its group index), not in first-encountered order: the
scenario yields rows [("FR",50), ("UK",100)]. -/
theorem C1_pivot_sorted_shape (df : Table) (gb vals : List String)
    (filt : List (String × FilterVal)) (agg : List Value → Value) (dff t : Table)
    (hf : applyFilters df filt = Except.ok dff)
    (hok : create_pivot df gb vals filt agg = Except.ok t) :
    (t.cols = gb ++ vals ∧
     t.rows.length = ((dff.rows.map (keyOf dff gb)).dedup).length ∧
     (t.rows.map (fun r => r.take gb.length)).Nodup ∧
     List.Chain' keyLe (t.rows.map (fun r => r.take gb.length))) ∧
    create_pivot scenarioTable ["Country"] ["Revenue"] [] sumAgg =
      Except.ok scenarioResult := by
  refine ⟨?_, rfl⟩
  unfold create_pivot at hok
  split at hok
  · exact Except.noConfusion hok
  · rename_i dff' ha
    have hdd : dff = dff' := Except.ok.inj (hf.symm.trans ha)
    subst hdd
    split at hok
    · rename_i t0 hp
      cases hok
      unfold pivotTableFn at hp
      split at hp
      · exact Except.noConfusion hp
      · split at hp
        · exact Except.noConfusion hp
        · cases hp
          have hmapeq :
              ((sortKeys ((dff.rows.map (keyOf dff gb)).dedup)).map (fun k =>
                k ++ vals.map (fun vc =>
                  agg ((dff.rows.filter (fun r => keyOf dff gb r == k)).filterMap
                    (fun r => dff.cellAt r vc))))).map (fun r => r.take gb.length) =
              sortKeys ((dff.rows.map (keyOf dff gb)).dedup) := by
            rw [List.map_map]
            have hpt : ∀ k ∈ sortKeys ((dff.rows.map (keyOf dff gb)).dedup),
                ((fun r : List Value => r.take gb.length) ∘ (fun k =>
                  k ++ vals.map (fun vc =>
                    agg ((dff.rows.filter (fun r => keyOf dff gb r == k)).filterMap
                      (fun r => dff.cellAt r vc))))) k = k := by
              intro k hk
              simp only [Function.comp]
              rw [← sortKeys_mem_length dff gb k hk, List.take_left]
            rw [List.map_congr_left hpt, List.map_id']
          refine ⟨rfl, ?_, ?_, ?_⟩
          · simp only [List.length_map]
            exact (List.perm_insertionSort keyLe _).length_eq
          · rw [hmapeq]
            exact ((List.perm_insertionSort keyLe _).nodup_iff).mpr (List.nodup_dedup _)
          · rw [hmapeq]
            exact (List.sorted_insertionSort keyLe _).chain'
    · exact Except.noConfusion hok

/-- Witness for C1_pivot_sorted_shape at the scenario pivot. -/
theorem C1_pivot_sorted_shape_witness :
    scenarioResult.cols = ["Country"] ++ ["Revenue"] ∧
    scenarioResult.rows.length =
      ((scenarioTable.rows.map (keyOf scenarioTable ["Country"])).dedup).length ∧
    List.Chain' keyLe (scenarioResult.rows.map (fun r => r.take 1)) := by
  have h := C1_pivot_sorted_shape scenarioTable ["Country"] ["Revenue"] [] sumAgg
    scenarioTable scenarioResult rfl rfl
  exact ⟨h.1.1, h.1.2.1, h.1.2.2.2⟩

/-- The check loop reports nothing exactly when every later dataset's column
set matches the first dataset's. -/
theorem findMismatch_eq_none (fc : List String) (ps : List (String × Table)) :
    findMismatch fc ps = none ↔ ∀ p ∈ ps, colSetEq p.2.cols fc = true := by
  induction ps with
  | nil => simp [findMismatch]
  | cons hd tl ih =>
    obtain ⟨k, df⟩ := hd
    by_cases h : colSetEq df.cols fc = true
    · rw [show findMismatch fc ((k, df) :: tl) = findMismatch fc tl from by
        simp [findMismatch, h]]
      rw [ih]
      constructor
      · intro hall p hp
        rcases List.mem_cons.mp hp with rfl | hp'
        · exact h
        · exact hall p hp'
      · intro hall p hp
        exact hall p (List.mem_cons_of_mem _ hp)
    · constructor
      · intro hnone
        exfalso
        simp [findMismatch, h] at hnone
      · intro hall
        exact absurd (hall (k, df) (List.mem_cons_self _ _)) h

/-- A reported mismatch is the first offending dataset, with its missing and
extra columns relative to the first dataset. -/
theorem findMismatch_spec (fc : List String) : ∀ (ps : List (String × Table))
    (k : String) (m e : List String), findMismatch fc ps = some (k, m, e) →
    ∃ l1 t l2, ps = l1 ++ (k, t) :: l2 ∧
      (∀ p ∈ l1, colSetEq p.2.cols fc = true) ∧
      colSetEq t.cols fc = false ∧
      m = colsDiff fc t.cols ∧ e = colsDiff t.cols fc := by
  intro ps
  induction ps with
  | nil => intro k m e h; exact absurd h (by simp [findMismatch])
  | cons hd tl ih =>
    obtain ⟨k0, df⟩ := hd
    intro k m e h
    by_cases hc : colSetEq df.cols fc = true
    · have h' : findMismatch fc tl = some (k, m, e) := by
        simpa [findMismatch, hc] using h
      obtain ⟨l1, t, l2, hps, hall, hfa, hm, he⟩ := ih k m e h'
      refine ⟨(k0, df) :: l1, t, l2, by rw [hps]; rfl, ?_, hfa, hm, he⟩
      intro p hp
      rcases List.mem_cons.mp hp with rfl | hp'
      · exact hc
      · exact hall p hp'
    · have h' := h
      simp only [findMismatch, if_neg hc, Option.some.injEq, Prod.mk.injEq] at h'
      obtain ⟨rfl, hm, he⟩ := h'
      exact ⟨[], df, tl, rfl, by simp, by simpa using hc, hm.symm, he.symm⟩

/-- The registry used to refute C6: the 2nd and 3rd datasets both have
column sets differing from the first dataset's. -/
def joinDictCE : List (String × Dataset) :=
  [("d1", { df := some { cols := ["a"], rows := [] } }),
   ("d2", { df := some { cols := ["b"], rows := [] } }),
   ("d3", { df := some { cols := ["zzz"], rows := [] } })]

/-- C6 is false on the code as universally stated: with two offending
datasets the check loop returns at the first mismatch, so the error names
only the first offending dataset — here the message reports d2 and never
names "zzz", the extra column of the also-offending dataset d3. -/
theorem C6_counterexample :
    (join_datasets joinDictCE ["d1", "d2", "d3"]).1 = none ∧
    colSetEq (["zzz"] : List String) ["a"] = false ∧
    "zzz" ∈ colsDiff ["zzz"] ["a"] ∧
    strContains (join_datasets joinDictCE ["d1", "d2", "d3"]).2.2 "zzz" = false := by
  decide

/-- The two-dataset registry of the specification scenario: columns [A, B]
and [A, B, C]. -/
def joinDictAB : List (String × Dataset) :=
  [("dAB", { df := some { cols := ["A", "B"], rows := [] } }),
   ("dABC", { df := some { cols := ["A", "B", "C"], rows := [] } })]

/-- C6 (amended): joining datasets whose column sets are not all identical
fails without returning any (even partial) joined table, and its error
message names, for the FIRST offending dataset in order, the columns
missing and the columns extra relative to the first dataset (later
offending datasets are not reported); in particular, joining [A, B] with
[A, B, C] fails with the error naming C as an extra column. -/
theorem C6_first_mismatch_reported (dict : List (String × Dataset)) (keys : List String)
    (pairs : List (String × Table))
    (hlen : ¬ keys.length < 2)
    (hg : gatherDfs dict keys = Except.ok pairs)
    (hbad : ∃ p ∈ pairs.drop 1, colSetEq p.2.cols (firstColsOf pairs) = false) :
    ((join_datasets dict keys).1 = none ∧
     ∃ l1 k t l2,
       pairs.drop 1 = l1 ++ (k, t) :: l2 ∧
       (∀ p ∈ l1, colSetEq p.2.cols (firstColsOf pairs) = true) ∧
       colSetEq t.cols (firstColsOf pairs) = false ∧
       (join_datasets dict keys).2.2 =
         mismatchMessage k (colsDiff (firstColsOf pairs) t.cols)
           (colsDiff t.cols (firstColsOf pairs))) ∧
    join_datasets joinDictAB ["dAB", "dABC"] =
      (none, none, "Column mismatch in dataset dABC. Extra columns: C.") ∧
    "C" ∈ colsDiff ["A", "B", "C"] ["A", "B"] := by
  refine ⟨?_, by decide, by decide⟩
  have hmis : ¬ findMismatch (firstColsOf pairs) (pairs.drop 1) = none := by
    rw [findMismatch_eq_none]
    intro hall
    obtain ⟨p, hp, hbadp⟩ := hbad
    rw [hall p hp] at hbadp
    cases hbadp
  obtain ⟨kme, hsome⟩ := Option.ne_none_iff_exists'.mp hmis
  obtain ⟨k, m, e⟩ := kme
  obtain ⟨l1, t, l2, hsplit, hall, hfa, hm, he⟩ :=
    findMismatch_spec (firstColsOf pairs) (pairs.drop 1) k m e hsome
  unfold join_datasets
  rw [if_neg hlen]
  simp only [hg, hsome]
  exact ⟨trivial, l1, k, t, l2, hsplit, hall, hfa, by rw [hm, he]⟩

/-- Witness for C6_first_mismatch_reported at the [A,B] versus [A,B,C]
scenario registry. -/
theorem C6_first_mismatch_reported_witness :
    (join_datasets joinDictAB ["dAB", "dABC"]).1 = none := by
  have h := C6_first_mismatch_reported joinDictAB ["dAB", "dABC"]
    [("dAB", { cols := ["A", "B"], rows := [] }),
     ("dABC", { cols := ["A", "B", "C"], rows := [] })]
    (by decide) rfl
    ⟨("dABC", { cols := ["A", "B", "C"], rows := [] }), by decide, by decide⟩
  exact h.1.1

/-- Witness for C2_fallback_third_attempt at a concrete failing engine. -/
theorem C2_fallback_third_attempt_witness :
    (execute_query (fun _ _ => Except.error "boom") "q2" (some "CTX2")).2.get? 1 =
      some (expandedQuery "CTX2" "q2") ∧
    (execute_query (fun _ _ => Except.error "boom") "q2" (some "CTX2")).2.get? 2 =
      some (fallbackQuery "q2") :=
  C2_fallback_third_attempt (fun _ _ => Except.error "boom") "q2" "CTX2" "boom" "boom"
    (by decide) rfl rfl
